import Mathlib

/-!
Verification development for the fast-agent dynamic-credential core:
the client-side dynamic key provider (`dynamic_key_provider.py`) and the
adaptive token poller (`dynamic_api_key_server.py`).

Timestamps and durations on the provider side are modelled as integers;
on the poller side, where Python floats flow through mean/variance
arithmetic, they are modelled as rationals.  JSON response bodies are
modelled by the record of the four fields the provider reads.
-/

/-! ## Key provider side (`src/mcp_agent/llm/dynamic_key_provider.py`) -/

/-- Configuration for dynamic API key retrieval (`DynamicKeyConfig`).
Only the fields the modelled logic reads are kept; `cache_duration_seconds`
defaults to 1800 in the source. -/
structure DynamicKeyConfig where
  endpoint_url : String
  cache_duration_seconds : Int
  timeout_seconds : Int
deriving DecidableEq

/-- The JSON body of a 2xx response, restricted to the four fields
`fetch_api_key` inspects; `none` models field absence. -/
structure KeyResponse where
  token : Option String
  api_key : Option String
  age_seconds : Option Int
  expires_in : Option Int
deriving DecidableEq

/-- A cached API key with expiration (`CachedApiKey`). -/
structure CachedApiKey where
  key : String
  expires_at : Int
deriving DecidableEq

/-- `CachedApiKey.is_expired`: `time.time() > self.expires_at`, with the
current time passed explicitly. -/
def CachedApiKey.is_expired (c : CachedApiKey) (now : Int) : Bool :=
  now > c.expires_at

/-- The provider cache `self._cache : Dict[str, CachedApiKey]`, as an
association list where insertion shadows earlier entries. -/
abbrev Cache := List (String × CachedApiKey)

/-- Dictionary lookup `self._cache.get(provider_name)`. -/
def cacheLookup (c : Cache) (k : String) : Option CachedApiKey :=
  match c with
  | [] => none
  | (k₀, v) :: rest => if k₀ = k then some v else cacheLookup rest k

/-- Dictionary assignment `self._cache[provider_name] = ...`
(shadowing insert). -/
def cacheInsert (c : Cache) (k : String) (v : CachedApiKey) : Cache :=
  (k, v) :: c

/-- Outcome of the outbound HTTP GET, as the provider distinguishes it:
a 2xx body, an `HTTPStatusError` raised by `raise_for_status`, or a
transport-level `RequestError` (connection refused, timeout). -/
inductive HttpResult where
  | success (data : KeyResponse)
  | statusError (status : Nat) (text : String)
  | requestError (message : String)
deriving DecidableEq

/-- `ProviderKeyError`, with the diagnostic payload each raise site
interpolates into its message strings: the invalid-response raise carries
the provider name and the raw body, the status raise carries the provider
name plus HTTP status and text, the connection raise carries the endpoint
URL and the underlying cause. -/
inductive ProviderKeyError where
  | invalidResponse (provider : String) (data : KeyResponse)
  | httpStatus (provider : String) (status : Nat) (text : String)
  | connectFailure (url : String) (message : String)
deriving DecidableEq

/-- Result of one `fetch_api_key` call: the returned key or raised error,
the cache state afterwards, and how many outbound network requests the
call issued. -/
structure FetchResult where
  result : Except ProviderKeyError String
  cache : Cache
  network_calls : Nat

/-- The response-shape normalization step of `fetch_api_key`
(lines 101-117): the candidate key and `expires_in` extracted from a 2xx
body by field presence, `token` checked first, then `api_key`; the
`token` branch uses `max(60, 1800 - age_seconds)` when `age_seconds` is
present, the `api_key` branch uses `data.get("expires_in", default)`. -/
def extractKey (cfg : DynamicKeyConfig) (data : KeyResponse) : Option String × Int :=
  match data.token with
  | some t =>
    match data.age_seconds with
    | some age_seconds => (some t, max 60 (1800 - age_seconds))
    | none => (some t, cfg.cache_duration_seconds)
  | none =>
    match data.api_key with
    | some k => (some k, data.expires_in.getD cfg.cache_duration_seconds)
    | none => (none, cfg.cache_duration_seconds)

/-- The cache-miss path of `fetch_api_key` (lines 85-151): issue the GET,
normalize the body (`extractKey`), reject a falsy (absent or empty)
extracted key with the invalid-response error, cache
`{key, now + expires_in}` on success, and map the two `httpx` failure
classes to their `ProviderKeyError` raise sites. -/
def fetchFresh (cfg : DynamicKeyConfig) (cache : Cache) (provider_name : String)
    (now : Int) (http : HttpResult) : FetchResult :=
  match http with
  | .success data =>
    match extractKey cfg data with
    | (none, _) => ⟨.error (.invalidResponse provider_name data), cache, 1⟩
    | (some k, expires_in) =>
      if k = "" then
        ⟨.error (.invalidResponse provider_name data), cache, 1⟩
      else
        ⟨.ok k, cacheInsert cache provider_name ⟨k, now + expires_in⟩, 1⟩
  | .statusError status text =>
    ⟨.error (.httpStatus provider_name status text), cache, 1⟩
  | .requestError message =>
    ⟨.error (.connectFailure cfg.endpoint_url message), cache, 1⟩

/-- `fetch_api_key` (lines 64-151): under the provider lock, return a
cached unexpired key without any network call, otherwise fetch fresh. -/
def fetch_api_key (cfg : DynamicKeyConfig) (cache : Cache) (provider_name : String)
    (now : Int) (http : HttpResult) : FetchResult :=
  match cacheLookup cache provider_name with
  | some cached =>
    if cached.is_expired now then fetchFresh cfg cache provider_name now http
    else ⟨.ok cached.key, cache, 0⟩
  | none => fetchFresh cfg cache provider_name now http

/-- The cache state in which `fetch_api_key` proceeds to the network:
no entry for the key, or an entry already expired at `now`. -/
def cacheMissOrExpired (cache : Cache) (k : String) (now : Int) : Prop :=
  cacheLookup cache k = none ∨
    ∃ c, cacheLookup cache k = some c ∧ c.expires_at < now

/-- Two `fetch_api_key` calls for the same key arriving concurrently:
`self._lock` spans the whole check-then-fetch-then-populate sequence, so
any interleaving is equivalent to running the two calls one after the
other, the second against the first call's resulting cache. -/
def race_fetch (cfg : DynamicKeyConfig) (cache : Cache) (k : String)
    (now : Int) (http : HttpResult) : FetchResult × FetchResult :=
  let r₁ := fetch_api_key cfg cache k now http
  let r₂ := fetch_api_key cfg r₁.cache k now http
  (r₁, r₂)

/-! ## Adaptive poller side (`examples/dynamic_api_key_server.py`) -/

/-- `TokenPattern`: sliding window of observed rotation intervals, the
timestamp of the last detected rotation, and the pattern-confidence
counter (a Python `int`, kept as `Int` and floored at 0 by the update). -/
structure TokenPattern where
  refresh_intervals : List Int
  last_refresh_time : Rat
  confidence_level : Int
deriving DecidableEq

/-- Mean of the window, `sum(intervals) / len(intervals)`, as computed at
both call sites in the source (float arithmetic modelled exactly over the
rationals). -/
def listMean (l : List Int) : Rat :=
  (l.map (fun x => (x : Rat))).sum / (l.length : Rat)

/-- Population variance of the window,
`sum((x - avg) ** 2 for x in intervals) / len(intervals)`. -/
def listVariance (l : List Int) : Rat :=
  (l.map (fun x => ((x : Rat) - listMean l) ^ 2)).sum / (l.length : Rat)

/-- The sliding-window mechanics of `_update_pattern` (lines 94-98):
append the new interval, then `pop(0)` when the list has grown past 5. -/
def pushWindow (w : List Int) (x : Int) : List Int :=
  let w' := w ++ [x]
  if w'.length > 5 then w'.tail else w'

/-- `AdaptiveTokenPoller._update_pattern` (lines 92-112): push the
interval into the window; only once the window holds at least 3 samples,
recompute confidence from the window's population variance
(`< 100` increments, otherwise `max(0, confidence - 1)`). -/
def update_pattern (p : TokenPattern) (interval : Int) : TokenPattern :=
  let intervals := pushWindow p.refresh_intervals interval
  if 3 ≤ intervals.length then
    if listVariance intervals < 100 then
      { refresh_intervals := intervals
        last_refresh_time := p.last_refresh_time
        confidence_level := p.confidence_level + 1 }
    else
      { refresh_intervals := intervals
        last_refresh_time := p.last_refresh_time
        confidence_level := max 0 (p.confidence_level - 1) }
  else
    { refresh_intervals := intervals
      last_refresh_time := p.last_refresh_time
      confidence_level := p.confidence_level }

/-- `AdaptiveTokenPoller._calculate_next_poll_interval` (lines 114-138). -/
def calculate_next_poll_interval (p : TokenPattern) (consecutive_same_tokens : Nat)
    (current_time : Rat) : Int :=
  if 3 ≤ p.confidence_level ∧ p.refresh_intervals ≠ [] then
    let avg_refresh_time := listMean p.refresh_intervals
    let time_since_last_refresh := current_time - p.last_refresh_time
    let time_until_next_refresh := avg_refresh_time - time_since_last_refresh
    if time_until_next_refresh > 300 then 120
    else if time_until_next_refresh > 120 then 60
    else 30
  else
    if consecutive_same_tokens < 5 then 30
    else if consecutive_same_tokens < 20 then 60
    else if consecutive_same_tokens < 40 then 120
    else 300

/-- Python `int()` applied to a float: truncation toward zero. -/
def truncToInt (q : Rat) : Int :=
  if 0 ≤ q then q.floor else q.ceil

/-- The poller state mutated by `_poll_loop`: the last-known credential,
the pattern, and the loop-local `consecutive_same_tokens` counter. -/
structure PollerState where
  current_token : Option String
  pattern : TokenPattern
  consecutive_same_tokens : Nat
deriving DecidableEq

/-- One iteration's interaction with the credential source: the fetched
token string, or a raised error (non-zero exit of the CLI, etc.). -/
inductive FetchOutcome where
  | ok (tok : String)
  | err (message : String)
deriving DecidableEq

/-- One iteration of `_poll_loop` (lines 60-90), given the fetch outcome
and the current time: returns the new state and the sleep duration chosen
for this iteration.  A raised fetch error reaches the `except` handler,
leaving the state untouched and sleeping the fixed 30s fallback. -/
def poll_step (s : PollerState) (o : FetchOutcome) (current_time : Rat) :
    PollerState × Int :=
  match o with
  | .err _ => (s, 30)
  | .ok new_token =>
    if some new_token ≠ s.current_token then
      let pattern₁ :=
        match s.current_token with
        | some _ =>
          update_pattern s.pattern
            (truncToInt (current_time - s.pattern.last_refresh_time))
        | none => s.pattern
      let pattern₂ :=
        { refresh_intervals := pattern₁.refresh_intervals
          last_refresh_time := current_time
          confidence_level := pattern₁.confidence_level }
      ({ current_token := some new_token
         pattern := pattern₂
         consecutive_same_tokens := 0 },
       calculate_next_poll_interval pattern₂ 0 current_time)
    else
      let s' :=
        { current_token := s.current_token
          pattern := s.pattern
          consecutive_same_tokens := s.consecutive_same_tokens + 1 }
      (s', calculate_next_poll_interval s'.pattern s'.consecutive_same_tokens current_time)

/-- Running `_poll_loop` over a finite schedule of (fetch outcome, time)
events: the final state and the sleep chosen at each iteration. -/
def poll_trace (s : PollerState) : List (FetchOutcome × Rat) → PollerState × List Int
  | [] => (s, [])
  | (o, t) :: rest =>
    let step := poll_step s o t
    let tail := poll_trace step.1 rest
    (tail.1, step.2 :: tail.2)

/-- The interval appended by a single iteration: one entry exactly when
the iteration detects a rotation (a fetched token differing from a
previously known token), empty otherwise. -/
def rotationPrefix (s : PollerState) (o : FetchOutcome) (t : Rat) : List Int :=
  match o, s.current_token with
  | .ok tok, some cur =>
    if tok ≠ cur then [truncToInt (t - s.pattern.last_refresh_time)] else []
  | _, _ => []

/-- The intervals the loop appends along a schedule, in chronological
order; its length is the number of rotations the loop has seen. -/
def rotationIntervals (s : PollerState) : List (FetchOutcome × Rat) → List Int
  | [] => []
  | (o, t) :: rest =>
    rotationPrefix s o t ++ rotationIntervals (poll_step s o t).1 rest

/-- The poller's initial state: no token, empty pattern
(`TokenPattern(refresh_intervals=[], last_refresh_time=0)`),
`consecutive_same_tokens = 0`. -/
def initPoller : PollerState :=
  { current_token := none
    pattern :=
      { refresh_intervals := []
        last_refresh_time := 0
        confidence_level := 0 }
    consecutive_same_tokens := 0 }

/-! ## Helper lemmas -/

/-- The cache-miss path always issues exactly one network request,
whatever the response. -/
theorem fetchFresh_calls (cfg : DynamicKeyConfig) (cache : Cache)
    (provider_name : String) (now : Int) (http : HttpResult) :
    (fetchFresh cfg cache provider_name now http).network_calls = 1 := by
  cases http with
  | success data =>
    simp only [fetchFresh]
    rcases h : extractKey cfg data with ⟨k?, e⟩
    cases k? with
    | none => simp
    | some k => by_cases hk : k = "" <;> simp [hk]
  | statusError status text => rfl
  | requestError message => rfl

/-- On a missing or expired entry, `fetch_api_key` reduces to the
cache-miss path. -/
theorem fetch_miss (cfg : DynamicKeyConfig) (cache : Cache) (k : String)
    (now : Int) (http : HttpResult) (h : cacheMissOrExpired cache k now) :
    fetch_api_key cfg cache k now http = fetchFresh cfg cache k now http := by
  rcases h with h | ⟨c, hc, hlt⟩
  · simp [fetch_api_key, h]
  · simp [fetch_api_key, hc, CachedApiKey.is_expired, hlt]

/-- All branches of `update_pattern` store the pushed window. -/
theorem update_pattern_intervals (p : TokenPattern) (i : Int) :
    (update_pattern p i).refresh_intervals = pushWindow p.refresh_intervals i := by
  simp only [update_pattern]
  split_ifs <;> rfl

/-- The confidence counter produced by `update_pattern`, in closed form. -/
theorem update_pattern_conf (p : TokenPattern) (i : Int) :
    (update_pattern p i).confidence_level =
      if 3 ≤ (pushWindow p.refresh_intervals i).length then
        (if listVariance (pushWindow p.refresh_intervals i) < 100 then
          p.confidence_level + 1
         else max 0 (p.confidence_level - 1))
      else p.confidence_level := by
  simp only [update_pattern]
  split_ifs <;> rfl

/-- One push on a saturated-suffix window is again a saturated suffix. -/
theorem pushWindow_drop (full : List Int) (x : Int) :
    pushWindow (full.drop (full.length - 5)) x =
      (full ++ [x]).drop ((full ++ [x]).length - 5) := by
  rcases le_or_lt full.length 4 with h | h
  · have h0 : full.length - 5 = 0 := by omega
    have h1 : (full ++ [x]).length - 5 = 0 := by simp; omega
    rw [h0, h1, List.drop_zero, List.drop_zero]
    simp only [pushWindow]
    rw [if_neg]
    simp
    omega
  · have hle : full.length - 5 ≤ full.length := by omega
    simp only [pushWindow]
    rw [if_pos]
    · rw [← List.drop_append_of_le_length hle, List.tail_drop]
      congr 1
      simp
      omega
    · simp
      omega

/-- Folding the sliding-window push from the empty window keeps exactly
the most recent five entries, in insertion order. -/
theorem foldl_pushWindow (xs : List Int) :
    List.foldl pushWindow [] xs = xs.drop (xs.length - 5) := by
  suffices h : ∀ (ys : List Int) (acc full : List Int),
      acc = full.drop (full.length - 5) →
      List.foldl pushWindow acc ys = (full ++ ys).drop ((full ++ ys).length - 5) by
    simpa using h xs [] [] (by simp)
  intro ys
  induction ys with
  | nil => intro acc full h; simpa using h
  | cons y rest ih =>
    intro acc full h
    rw [List.foldl_cons]
    have step : pushWindow acc y =
        (full ++ [y]).drop ((full ++ [y]).length - 5) := by
      rw [h]; exact pushWindow_drop full y
    have := ih (pushWindow acc y) (full ++ [y]) step
    rw [this]
    simp [List.append_assoc]

/-- One `poll_step` extends the stored window by the iteration's
rotation prefix. -/
theorem poll_step_intervals (s : PollerState) (o : FetchOutcome) (t : Rat) :
    (poll_step s o t).1.pattern.refresh_intervals =
      List.foldl pushWindow s.pattern.refresh_intervals (rotationPrefix s o t) := by
  cases o with
  | err m => rfl
  | ok tok =>
    cases hc : s.current_token with
    | none => simp [poll_step, rotationPrefix, hc]
    | some cur =>
      by_cases h : tok = cur
      · subst h
        simp [poll_step, rotationPrefix, hc]
      · simp [poll_step, rotationPrefix, hc, h, update_pattern_intervals]

/-- Along any schedule, the stored window is the fold of the pushes over
the appended intervals. -/
theorem trace_intervals (events : List (FetchOutcome × Rat)) :
    ∀ s : PollerState,
      (poll_trace s events).1.pattern.refresh_intervals =
        List.foldl pushWindow s.pattern.refresh_intervals
          (rotationIntervals s events) := by
  induction events with
  | nil => intro s; rfl
  | cons e rest ih =>
    intro s
    rcases e with ⟨o, t⟩
    have hL : (poll_trace s ((o, t) :: rest)).1 =
        (poll_trace (poll_step s o t).1 rest).1 := rfl
    have hR : rotationIntervals s ((o, t) :: rest) =
        rotationPrefix s o t ++ rotationIntervals (poll_step s o t).1 rest := rfl
    rw [hL, ih, hR, List.foldl_append, ← poll_step_intervals]

/-! ## Claims -/

/-- Claim C1, as stated, is false on the code: `_update_pattern` only
recomputes confidence once the window holds at least 3 samples.  At the
concrete input — first-ever appended interval 100, window `[100]`,
variance 0 < 100 — the claim demands that confidence rise from 0 to 1,
but the code leaves it at 0. -/
theorem C1_counterexample :
    listVariance (update_pattern ⟨[], 0, 0⟩ 100).refresh_intervals < 100 ∧
    (update_pattern ⟨[], 0, 0⟩ 100).confidence_level ≠ 0 + 1 := by
  constructor
  · have h : (update_pattern ⟨[], 0, 0⟩ 100).refresh_intervals = [100] := rfl
    rw [h]
    norm_num [listVariance, listMean]
  · decide

/-- Claim C1 (amended): whenever a new interval is appended, the window
is pushed, and confidence is recomputed only when the resulting window
holds at least 3 samples: variance < 100 increments it by exactly 1 with
no upper cap, otherwise it drops by 1 floored at 0.  With fewer than 3
samples in the window confidence is unchanged, and a polling iteration
that appends no interval (a fetch failure, an unchanged token, or the
first-ever fetch) never changes confidence. -/
theorem C1_confidence_update (p : TokenPattern) (i : Int) (s : PollerState)
    (o : FetchOutcome) (t : Rat) :
    ((update_pattern p i).refresh_intervals.length < 3 →
      (update_pattern p i).confidence_level = p.confidence_level) ∧
    (3 ≤ (update_pattern p i).refresh_intervals.length →
      listVariance (update_pattern p i).refresh_intervals < 100 →
      (update_pattern p i).confidence_level = p.confidence_level + 1) ∧
    (3 ≤ (update_pattern p i).refresh_intervals.length →
      ¬ listVariance (update_pattern p i).refresh_intervals < 100 →
      (update_pattern p i).confidence_level = max 0 (p.confidence_level - 1)) ∧
    ((∀ tok, o = .ok tok → s.current_token = some tok ∨ s.current_token = none) →
      (poll_step s o t).1.pattern.confidence_level = s.pattern.confidence_level) := by
  have hw := update_pattern_intervals p i
  refine ⟨?_, ?_, ?_, ?_⟩
  · intro h
    rw [hw] at h
    rw [update_pattern_conf, if_neg (by omega)]
  · intro h hv
    rw [hw] at h hv
    rw [update_pattern_conf, if_pos h, if_pos hv]
  · intro h hv
    rw [hw] at h hv
    rw [update_pattern_conf, if_pos h, if_neg hv]
  · intro hns
    cases o with
    | err m => rfl
    | ok tok =>
      rcases hns tok rfl with h | h
      · simp [poll_step, h]
      · simp [poll_step, h]

/-- Witness for C1 (amended) at concrete inputs: a first interval leaves
confidence at 5; a third consistent interval (window `[100,100,100]`,
variance 0) raises confidence 0 to 1; an inconsistent third interval
(window `[0,60,300]`, variance 16800) drops confidence 5 to 4; and an
iteration with an unchanged (here: first-ever) token leaves the initial
confidence 0 untouched. -/
theorem C1_confidence_update_witness :
    (update_pattern ⟨[], 0, 5⟩ 7).confidence_level = 5 ∧
    (update_pattern ⟨[100, 100], 0, 0⟩ 100).confidence_level = 0 + 1 ∧
    (update_pattern ⟨[0, 60], 0, 5⟩ 300).confidence_level = max 0 (5 - 1) ∧
    (poll_step initPoller (.ok "a") 5).1.pattern.confidence_level =
      initPoller.pattern.confidence_level := by
  refine ⟨?_, ?_, ?_, ?_⟩
  · exact (C1_confidence_update ⟨[], 0, 5⟩ 7 initPoller (.ok "a") 5).1 (by decide)
  · exact (C1_confidence_update ⟨[100, 100], 0, 0⟩ 100 initPoller (.ok "a") 5).2.1
      (by rw [update_pattern_intervals]; decide)
      (by rw [update_pattern_intervals]
          show listVariance [100, 100, 100] < 100
          norm_num [listVariance, listMean])
  · exact (C1_confidence_update ⟨[0, 60], 0, 5⟩ 300 initPoller (.ok "a") 5).2.2.1
      (by rw [update_pattern_intervals]; decide)
      (by rw [update_pattern_intervals]
          show ¬ listVariance [0, 60, 300] < 100
          norm_num [listVariance, listMean])
  · exact (C1_confidence_update ⟨[], 0, 5⟩ 7 initPoller (.ok "a") 5).2.2.2
      (fun tok h => Or.inr rfl)

/-- Claim C2: the next sleep duration follows the first-match tie-break
of `_calculate_next_poll_interval`: with confidence ≥ 3 and a non-empty
window, `remaining = mean(window) - (now - lastRotationTime)` selects
120s when remaining > 300, 60s when 120 < remaining ≤ 300, and 30s when
remaining ≤ 120; otherwise `consecutiveSameCount` selects 30s below 5,
60s below 20, 120s below 40, and 300s from 40 up. -/
theorem C2_next_poll_interval (p : TokenPattern) (cst : Nat) (now : Rat) :
    (3 ≤ p.confidence_level → p.refresh_intervals ≠ [] →
      calculate_next_poll_interval p cst now =
        (if 300 < listMean p.refresh_intervals - (now - p.last_refresh_time) then
          120
         else if 120 < listMean p.refresh_intervals - (now - p.last_refresh_time) ∧
             listMean p.refresh_intervals - (now - p.last_refresh_time) ≤ 300 then
          60
         else 30)) ∧
    (p.confidence_level < 3 ∨ p.refresh_intervals = [] →
      calculate_next_poll_interval p cst now =
        (if cst < 5 then 30
         else if cst < 20 then 60
         else if cst < 40 then 120
         else 300)) := by
  constructor
  · intro h1 h2
    simp only [calculate_next_poll_interval, if_pos (And.intro h1 h2)]
    by_cases hA : 300 < listMean p.refresh_intervals - (now - p.last_refresh_time)
    · simp [hA]
    · by_cases hB : 120 < listMean p.refresh_intervals - (now - p.last_refresh_time)
      · simp [hA, hB, le_of_not_lt hA]
      · simp [hA, hB]
  · intro h
    have hneg : ¬ (3 ≤ p.confidence_level ∧ p.refresh_intervals ≠ []) := by
      rcases h with h | h
      · exact fun hc => by omega
      · exact fun hc => hc.2 h
    simp only [calculate_next_poll_interval, if_neg hneg]

/-- Witness for C2: the learned-cadence branch with window average 300
and 150s elapsed yields 60s, and the discovery branch with confidence 0
and 41 consecutive identical tokens yields 300s. -/
theorem C2_next_poll_interval_witness :
    calculate_next_poll_interval ⟨[300, 300, 300], 0, 3⟩ 0 150 = 60 ∧
    calculate_next_poll_interval ⟨[], 0, 0⟩ 41 150 = 300 := by
  constructor
  · rw [(C2_next_poll_interval ⟨[300, 300, 300], 0, 3⟩ 0 150).1 (by decide)
      (by decide)]
    norm_num [listMean]
  · rw [(C2_next_poll_interval ⟨[], 0, 0⟩ 41 150).2 (Or.inl (by decide))]
    decide

/-- Claim C3: along every schedule of credential-source outcomes
processed from the poller's initial state, the stored window is exactly
the at-most-5 most recent appended intervals in chronological insertion
order, and its length equals min(5, number of rotations seen). -/
theorem C3_window_invariant (events : List (FetchOutcome × Rat)) :
    (poll_trace initPoller events).1.pattern.refresh_intervals =
      (rotationIntervals initPoller events).drop
        ((rotationIntervals initPoller events).length - 5) ∧
    (poll_trace initPoller events).1.pattern.refresh_intervals.length =
      min 5 (rotationIntervals initPoller events).length := by
  have h := trace_intervals events initPoller
  rw [show initPoller.pattern.refresh_intervals = [] from rfl,
    foldl_pushWindow] at h
  refine ⟨h, ?_⟩
  rw [h, List.length_drop]
  omega

/-- Claim C4: a 2xx response is normalized by field presence with
`token` checked first: with `token` present, the value is the token and
`expires_in` is `max(60, 1800 - age_seconds)` when `age_seconds` is also
present, else the configured default; otherwise with `api_key` present,
the value is the api_key and `expires_in` is the response's `expires_in`
field when present, else the configured default.  Concretely,
`{token: "abc", age_seconds: 1700}` is cached with `expires_in = 100` and
`{api_key: "xyz"}` with no `expires_in` is cached with the configured
default duration. -/
theorem C4_response_normalization (cfg : DynamicKeyConfig) (data : KeyResponse)
    (now : Int) :
    (∀ t, data.token = some t →
      extractKey cfg data =
        (some t,
         match data.age_seconds with
         | some a => max 60 (1800 - a)
         | none => cfg.cache_duration_seconds)) ∧
    (data.token = none → ∀ k, data.api_key = some k →
      extractKey cfg data =
        (some k,
         match data.expires_in with
         | some e => e
         | none => cfg.cache_duration_seconds)) ∧
    fetch_api_key cfg [] "anthropic" now
        (.success ⟨some "abc", none, some 1700, none⟩) =
      ⟨.ok "abc", [("anthropic", ⟨"abc", now + 100⟩)], 1⟩ ∧
    fetch_api_key cfg [] "anthropic" now
        (.success ⟨none, some "xyz", none, none⟩) =
      ⟨.ok "xyz", [("anthropic", ⟨"xyz", now + cfg.cache_duration_seconds⟩)], 1⟩ := by
  refine ⟨?_, ?_, ?_, ?_⟩
  · intro t ht
    cases ha : data.age_seconds <;> simp [extractKey, ht, ha]
  · intro ht k hk
    cases he : data.expires_in <;> simp [extractKey, ht, hk, he, Option.getD]
  · rfl
  · rfl

/-- Witness for C4: the two extraction rules and the token-shape
round-trip evaluated at the concrete responses from the claim. -/
theorem C4_response_normalization_witness :
    extractKey ⟨"http://localhost:8000", 1800, 10⟩
        ⟨some "abc", none, some 1700, none⟩ = (some "abc", 100) ∧
    extractKey ⟨"http://localhost:8000", 1800, 10⟩
        ⟨none, some "xyz", none, none⟩ = (some "xyz", 1800) ∧
    fetch_api_key ⟨"http://localhost:8000", 1800, 10⟩ [] "anthropic" 1000
        (.success ⟨some "abc", none, some 1700, none⟩) =
      ⟨.ok "abc", [("anthropic", ⟨"abc", 1000 + 100⟩)], 1⟩ := by
  refine ⟨?_, ?_, ?_⟩
  · have h := (C4_response_normalization ⟨"http://localhost:8000", 1800, 10⟩
      ⟨some "abc", none, some 1700, none⟩ 1000).1 "abc" rfl
    simpa using h
  · have h := (C4_response_normalization ⟨"http://localhost:8000", 1800, 10⟩
      ⟨none, some "xyz", none, none⟩ 1000).2.1 rfl "xyz" rfl
    simpa using h
  · exact (C4_response_normalization ⟨"http://localhost:8000", 1800, 10⟩
      ⟨some "abc", none, some 1700, none⟩ 1000).2.2.1

/-- Claim C5: cache round-trip.  A fetch finding an entry for the key
with `now ≤ expiresAt` returns the identical cached value with zero
network calls and an unchanged cache; a fetch finding the entry expired
issues exactly one network call; and a successful network fetch stores
the extracted value with `expiresAt = now + expires_in`. -/
theorem C5_cache_round_trip (cfg : DynamicKeyConfig) (cache : Cache)
    (k v : String) (ea now : Int) (http : HttpResult) :
    (cacheLookup cache k = some ⟨v, ea⟩ → now ≤ ea →
      fetch_api_key cfg cache k now http = ⟨.ok v, cache, 0⟩) ∧
    (cacheLookup cache k = some ⟨v, ea⟩ → ea < now →
      (fetch_api_key cfg cache k now http).network_calls = 1) ∧
    (∀ data key e, http = .success data → extractKey cfg data = (some key, e) →
      key ≠ "" → cacheMissOrExpired cache k now →
      fetch_api_key cfg cache k now http =
        ⟨.ok key, cacheInsert cache k ⟨key, now + e⟩, 1⟩) := by
  refine ⟨?_, ?_, ?_⟩
  · intro h1 h2
    have hne : ¬ ((⟨v, ea⟩ : CachedApiKey).is_expired now = true) := by
      simp [CachedApiKey.is_expired]
      omega
    simp [fetch_api_key, h1, hne]
  · intro h1 h2
    rw [fetch_miss cfg cache k now http (Or.inr ⟨⟨v, ea⟩, h1, h2⟩)]
    exact fetchFresh_calls cfg cache k now http
  · intro data key e hH hE hk hMiss
    subst hH
    rw [fetch_miss cfg cache k now _ hMiss]
    simp [fetchFresh, hE, hk]

/-- Witness for C5: on a cache holding `("anthropic", ⟨"k1", 1000⟩)`, a
fetch at time 900 is a pure cache hit; at time 1001 with an unreachable
endpoint exactly one network call is made; at time 2000 a fresh
`api_key`-shaped response is stored with expiry 2000 + 120. -/
theorem C5_cache_round_trip_witness :
    fetch_api_key ⟨"http://localhost:8000", 1800, 10⟩
        [("anthropic", ⟨"k1", 1000⟩)] "anthropic" 900 (.requestError "refused") =
      ⟨.ok "k1", [("anthropic", ⟨"k1", 1000⟩)], 0⟩ ∧
    (fetch_api_key ⟨"http://localhost:8000", 1800, 10⟩
        [("anthropic", ⟨"k1", 1000⟩)] "anthropic" 1001
        (.requestError "refused")).network_calls = 1 ∧
    fetch_api_key ⟨"http://localhost:8000", 1800, 10⟩
        [("anthropic", ⟨"k1", 1000⟩)] "anthropic" 2000
        (.success ⟨none, some "xyz", none, some 120⟩) =
      ⟨.ok "xyz",
       cacheInsert [("anthropic", ⟨"k1", 1000⟩)] "anthropic" ⟨"xyz", 2000 + 120⟩,
       1⟩ := by
  refine ⟨?_, ?_, ?_⟩
  · exact (C5_cache_round_trip ⟨"http://localhost:8000", 1800, 10⟩
      [("anthropic", ⟨"k1", 1000⟩)] "anthropic" "k1" 1000 900
      (.requestError "refused")).1 (by decide) (by decide)
  · exact (C5_cache_round_trip ⟨"http://localhost:8000", 1800, 10⟩
      [("anthropic", ⟨"k1", 1000⟩)] "anthropic" "k1" 1000 1001
      (.requestError "refused")).2.1 (by decide) (by decide)
  · exact (C5_cache_round_trip ⟨"http://localhost:8000", 1800, 10⟩
      [("anthropic", ⟨"k1", 1000⟩)] "anthropic" "k1" 1000 2000
      (.success ⟨none, some "xyz", none, some 120⟩)).2.2
      ⟨none, some "xyz", none, some 120⟩ "xyz" 120 rfl (by decide) (by decide)
      (Or.inr ⟨⟨"k1", 1000⟩, by decide, by decide⟩)

/-- Claim C6: a 2xx response with neither a `token` field nor an
`api_key` field makes the fetch fail with the invalid-response error
carrying the provider name and the raw body, leaving any prior cache
entry for that key untouched. -/
theorem C6_invalid_response (cfg : DynamicKeyConfig) (cache : Cache)
    (k : String) (now : Int) (data : KeyResponse)
    (hT : data.token = none) (hA : data.api_key = none)
    (hMiss : cacheMissOrExpired cache k now) :
    fetch_api_key cfg cache k now (.success data) =
      ⟨.error (.invalidResponse k data), cache, 1⟩ := by
  rw [fetch_miss cfg cache k now _ hMiss]
  simp [fetchFresh, extractKey, hT, hA]

/-- Witness for C6: the response `{unexpected-only}` (all recognized
fields absent) against a cache holding an expired entry for the key. -/
theorem C6_invalid_response_witness :
    fetch_api_key ⟨"http://localhost:8000", 1800, 10⟩
        [("anthropic", ⟨"k1", 1000⟩)] "anthropic" 2000
        (.success ⟨none, none, none, none⟩) =
      ⟨.error (.invalidResponse "anthropic" ⟨none, none, none, none⟩),
       [("anthropic", ⟨"k1", 1000⟩)], 1⟩ :=
  C6_invalid_response ⟨"http://localhost:8000", 1800, 10⟩
    [("anthropic", ⟨"k1", 1000⟩)] "anthropic" 2000 ⟨none, none, none, none⟩
    rfl rfl (Or.inr ⟨⟨"k1", 1000⟩, by decide, by decide⟩)

/-- Claim C7: a transport failure — non-2xx status or connection-level
request error — makes the fetch fail with the fetch error carrying the
upstream status or cause, with the cache unmodified; the error result
means no stale or empty value is returned in its place. -/
theorem C7_transport_failure (cfg : DynamicKeyConfig) (cache : Cache)
    (k : String) (now : Int) (status : Nat) (text message : String)
    (hMiss : cacheMissOrExpired cache k now) :
    fetch_api_key cfg cache k now (.statusError status text) =
      ⟨.error (.httpStatus k status text), cache, 1⟩ ∧
    fetch_api_key cfg cache k now (.requestError message) =
      ⟨.error (.connectFailure cfg.endpoint_url message), cache, 1⟩ := by
  constructor
  · rw [fetch_miss cfg cache k now _ hMiss]
    rfl
  · rw [fetch_miss cfg cache k now _ hMiss]
    rfl

/-- Witness for C7: an HTTP 503 and a connection failure against a cache
holding an expired entry, both leaving the entry in place. -/
theorem C7_transport_failure_witness :
    fetch_api_key ⟨"http://localhost:8000", 1800, 10⟩
        [("anthropic", ⟨"k1", 1000⟩)] "anthropic" 2000 (.statusError 503 "busy") =
      ⟨.error (.httpStatus "anthropic" 503 "busy"),
       [("anthropic", ⟨"k1", 1000⟩)], 1⟩ ∧
    fetch_api_key ⟨"http://localhost:8000", 1800, 10⟩
        [("anthropic", ⟨"k1", 1000⟩)] "anthropic" 2000 (.requestError "timeout") =
      ⟨.error (.connectFailure "http://localhost:8000" "timeout"),
       [("anthropic", ⟨"k1", 1000⟩)], 1⟩ :=
  C7_transport_failure ⟨"http://localhost:8000", 1800, 10⟩
    [("anthropic", ⟨"k1", 1000⟩)] "anthropic" 2000 503 "busy" "timeout"
    (Or.inr ⟨⟨"k1", 1000⟩, by decide, by decide⟩)

/-- Claim C8: a credential-source failure never terminates the polling
loop.  An iteration whose fetch raises is absorbed by the loop's blanket
handler: the state is untouched and the loop sleeps the fixed 30-second
fallback before retrying; along any schedule the loop completes one
iteration (one sleep) per event, so no failure propagates out while the
loop runs. -/
theorem C8_error_recovery (s s₀ : PollerState) (message : String) (t : Rat)
    (events : List (FetchOutcome × Rat)) :
    poll_step s (.err message) t = (s, 30) ∧
    (poll_trace s₀ events).2.length = events.length := by
  constructor
  · rfl
  · induction events generalizing s₀ with
    | nil => rfl
    | cons e rest ih =>
      rcases e with ⟨o, t'⟩
      simp only [poll_trace, List.length_cons]
      rw [ih]

/-- Claim C9: single-flight on a cold or expired cache.  The provider
lock spans the entire check-then-fetch-then-populate sequence, so two
racing fetches for the same key serialize (`race_fetch`): the first
issues the single network request and populates the cache, the second
observes the freshly populated entry, and both return the same value,
for one outbound request in total. -/
theorem C9_single_flight (cfg : DynamicKeyConfig) (cache : Cache) (k : String)
    (now : Int) (data : KeyResponse) (key : String) (e : Int)
    (hMiss : cacheMissOrExpired cache k now)
    (hE : extractKey cfg data = (some key, e)) (hk : key ≠ "") (he : 0 ≤ e) :
    (race_fetch cfg cache k now (.success data)).1.result = .ok key ∧
    (race_fetch cfg cache k now (.success data)).2.result = .ok key ∧
    (race_fetch cfg cache k now (.success data)).1.network_calls +
      (race_fetch cfg cache k now (.success data)).2.network_calls = 1 := by
  have h1 : fetch_api_key cfg cache k now (.success data) =
      ⟨.ok key, cacheInsert cache k ⟨key, now + e⟩, 1⟩ := by
    rw [fetch_miss cfg cache k now _ hMiss]
    simp [fetchFresh, hE, hk]
  have hfresh : ¬ ((⟨key, now + e⟩ : CachedApiKey).is_expired now = true) := by
    simp [CachedApiKey.is_expired]
    omega
  have h2 : fetch_api_key cfg (cacheInsert cache k ⟨key, now + e⟩) k now
      (.success data) = ⟨.ok key, cacheInsert cache k ⟨key, now + e⟩, 0⟩ := by
    simp [fetch_api_key, cacheInsert, cacheLookup, hfresh]
  refine ⟨?_, ?_, ?_⟩ <;> simp [race_fetch, h1, h2]

/-- Witness for C9: two racing fetches for key `"p"` at time 100 on a
cold cache against a `token`-shaped response: both return the token and
exactly one request goes out. -/
theorem C9_single_flight_witness :
    (race_fetch ⟨"http://localhost:8000", 1800, 10⟩ [] "p" 100
        (.success ⟨some "tok1", none, none, none⟩)).1.result = .ok "tok1" ∧
    (race_fetch ⟨"http://localhost:8000", 1800, 10⟩ [] "p" 100
        (.success ⟨some "tok1", none, none, none⟩)).2.result = .ok "tok1" ∧
    (race_fetch ⟨"http://localhost:8000", 1800, 10⟩ [] "p" 100
        (.success ⟨some "tok1", none, none, none⟩)).1.network_calls +
      (race_fetch ⟨"http://localhost:8000", 1800, 10⟩ [] "p" 100
        (.success ⟨some "tok1", none, none, none⟩)).2.network_calls = 1 :=
  C9_single_flight ⟨"http://localhost:8000", 1800, 10⟩ [] "p" 100
    ⟨some "tok1", none, none, none⟩ "tok1" 1800
    (Or.inl rfl) (by decide) (by decide) (by decide)

/-- Claim C10: a 2xx response whose extracted credential is the empty
string — an empty `token` field, or an empty `api_key` field selected in
its absence — is treated like a missing key: the fetch fails with the
invalid-response error and the cache entry for the key is unchanged,
because the code tests the truthiness of the extracted value rather than
field presence. -/
theorem C10_empty_key_rejected (cfg : DynamicKeyConfig) (cache : Cache)
    (k : String) (now : Int) (data : KeyResponse)
    (hMiss : cacheMissOrExpired cache k now)
    (hE : (extractKey cfg data).1 = some "") :
    fetch_api_key cfg cache k now (.success data) =
      ⟨.error (.invalidResponse k data), cache, 1⟩ := by
  rw [fetch_miss cfg cache k now _ hMiss]
  rcases hx : extractKey cfg data with ⟨a, b⟩
  rw [hx] at hE
  simp only at hE
  subst hE
  simp [fetchFresh, hx]

/-- Witness for C10: a response with `token = ""` on a cold cache is
rejected with the invalid-response error. -/
theorem C10_empty_key_rejected_witness :
    fetch_api_key ⟨"http://localhost:8000", 1800, 10⟩ [] "anthropic" 1000
        (.success ⟨some "", none, none, none⟩) =
      ⟨.error (.invalidResponse "anthropic" ⟨some "", none, none, none⟩), [], 1⟩ :=
  C10_empty_key_rejected ⟨"http://localhost:8000", 1800, 10⟩ [] "anthropic" 1000
    ⟨some "", none, none, none⟩ (Or.inl rfl) (by decide)
